import Mathlib

/-!
Shallow embedding of the surf.new settings configuration engine.

The embedded source is the `SettingsContent` React component (agent /
provider / model selection cascade, parameter defaulting, the Ollama
dynamic-model fetch handlers, the per-field setting update and the save
gate) together with `computeApiBaseUrl` from `next.config.js`.

JavaScript objects used as string-keyed records are modelled as ordered
association lists (`List (String × α)`), matching `Object.entries`
insertion order; JS numbers are modelled as rationals; `undefined` is
modelled by `Option`; a JS runtime `TypeError` (property access on
`undefined`) is modelled by an `Option`-returning function yielding
`none`.
-/

/-- Kind of a tunable setting (`SettingConfig.type` in the source:
`'integer' | 'float' | 'text' | 'textarea'`). -/
inductive SettingType where
  | integer
  | float
  | text
  | textarea
deriving DecidableEq, Repr

/-- A setting value (`number | string` in the source). -/
inductive Value where
  | num (q : ℚ)
  | str (s : String)
deriving DecidableEq, Repr

/-- `interface SettingConfig` from the source. -/
structure SettingConfig where
  type : SettingType
  default : Value
  min : Option ℚ := none
  max : Option ℚ := none
  step : Option ℚ := none
  maxLength : Option Nat := none
  description : Option String := none
deriving DecidableEq, Repr

/-- One entry of `supported_models`: a provider id plus its ordered model list. -/
structure SupportedModel where
  provider : String
  models : List String
deriving DecidableEq, Repr

/-- A parameter schema: ordered mapping key ↦ SettingConfig. -/
abbrev Schema := List (String × SettingConfig)

/-- A concrete parameter value mapping: ordered mapping key ↦ value. -/
abbrev ValueMapping := List (String × Value)

/-- `interface AgentConfig` from the source. -/
structure AgentConfig where
  name : String
  description : String
  supported_models : List SupportedModel
  model_settings : Schema
  agent_settings : Schema
deriving DecidableEq, Repr

/-- `interface AvailableAgents`: mapping agent key ↦ AgentConfig. -/
abbrev AvailableAgents := List (String × AgentConfig)

/-- A dynamic (Ollama) model entry: `{ tag: string; base_name: string }`. -/
structure OllamaModel where
  tag : String
  base_name : String
deriving DecidableEq, Repr

/-- The component state of `SettingsContent` relevant to the claims:
the five `useState` selections plus the Ollama fetch state. -/
structure ComponentState where
  selectedAgent : Option String
  selectedProvider : Option String
  selectedModel : Option String
  modelSettings : Option ValueMapping
  agentSettings : Option ValueMapping
  ollamaModels : List OllamaModel
  ollamaError : Option String
  isLoadingOllamaModels : Bool
deriving DecidableEq, Repr

/-- JS record update `{ ...m, [k]: v }` (equivalently `m[k] = v`): replace
the value of `k` in place if present (keeping insertion position),
otherwise append `(k, v)` at the end. -/
def objSet (m : List (String × α)) (k : String) (v : α) : List (String × α) :=
  match m with
  | [] => [(k, v)]
  | kv :: rest => if kv.1 = k then (k, v) :: rest else kv :: objSet rest k v

/-- The defaulting reduce from the source, used identically in the initial
load and in the agent-change effect:
`Object.entries(schema).reduce((acc, [key, config]) => { acc[key] = config.default; return acc; }, {})`. -/
def computeDefaults (schema : Schema) : ValueMapping :=
  schema.foldl (fun acc kv => objSet acc kv.1 kv.2.default) []

/-- `sanitizeNumber` from `SettingInput`: clamp to `max` first, then to `min`,
each bound applied only when defined. -/
def sanitizeNumber (config : SettingConfig) (value : ℚ) : ℚ :=
  let v1 := match config.max with
    | some mx => Min.min value mx
    | none => value
  match config.min with
  | some mn => Max.max v1 mn
  | none => v1

/-- JS `s.startsWith(pre)`: the character sequence of `pre` is a prefix of
that of `s`. -/
def jsStartsWith (s pre : String) : Bool :=
  pre.data.isPrefixOf s.data

/-- `computeApiBaseUrl` from `next.config.js`. `none` models an unset
`process.env.API_URL`; `!apiUrl || apiUrl.length === 0` is the emptiness
test on the optional string. -/
def computeApiBaseUrl (apiUrl : Option String) : String :=
  match apiUrl with
  | none => "http://localhost:8000"
  | some s =>
    if s = "" then "http://localhost:8000"
    else if jsStartsWith s "http://" || jsStartsWith s "https://" then s
    else "https://" ++ s

/-- `handleSettingChange`'s first argument: the `'model' | 'agent'` union. -/
inductive SettingKind where
  | model
  | agent
deriving DecidableEq, Repr

/-- `handleSettingChange(settingType, key, value)` from the source: spread
the previous mapping (or `{}` when undefined) and assign `key`. The
schema of the selected agent is never consulted. -/
def handleSettingChange (settingType : SettingKind) (key : String) (value : Value)
    (st : ComponentState) : ComponentState :=
  match settingType with
  | .model => { st with modelSettings := some (objSet (st.modelSettings.getD []) key value) }
  | .agent => { st with agentSettings := some (objSet (st.agentSettings.getD []) key value) }

/-- The agent-change `useEffect` (deps `[selectedAgent, agents]`), given that
the agent catalog has loaded. The JS guard `if (agents && selectedAgent)`
tests string truthiness, so the effect is also skipped when the selected
agent key is the empty string. Returns `none` where the JS code would throw
a `TypeError` (`agents[selectedAgent]` undefined, or `supported_models[0]`
undefined). Note `supported_models[0].models[0]` on an empty model list is
`undefined` (no throw), modelled by `List.head?`. -/
def agentChangeEffect (agents : AvailableAgents) (st : ComponentState) :
    Option ComponentState :=
  match st.selectedAgent with
  | none => some st
  | some a =>
    if a = "" then some st
    else
      match List.lookup a agents with
      | none => none
      | some cfg =>
        match cfg.supported_models with
        | [] => none
        | entry :: _ =>
          some { st with
            selectedProvider := some entry.provider,
            selectedModel := entry.models.head?,
            modelSettings := some (computeDefaults cfg.model_settings),
            agentSettings := some (computeDefaults cfg.agent_settings) }

/-- The provider-change `useEffect` (deps `[selectedProvider, selectedAgent,
agents]`), given that the agent catalog has loaded. The JS guard
`if (agents && selectedAgent && selectedProvider)` tests string truthiness,
so the effect is also skipped when the selected agent key or provider id is
the empty string. Returns `none` where the JS code would throw
(`agents[selectedAgent]` undefined). When the selected provider has no
entry, or its entry's model list is empty, the effect does nothing. -/
def providerChangeEffect (agents : AvailableAgents) (st : ComponentState) :
    Option ComponentState :=
  match st.selectedAgent, st.selectedProvider with
  | some a, some p =>
    if a = "" ∨ p = "" then some st
    else
      match List.lookup a agents with
      | none => none
      | some cfg =>
        match cfg.supported_models.find? (fun m : SupportedModel => m.provider == p) with
        | none => some st
        | some entry =>
          match entry.models with
          | [] => some st
          | m0 :: _ => some { st with selectedModel := some m0 }
  | _, _ => some st

/-- JS `modelTags.includes(selectedModel)` where `selectedModel` may be
`undefined`: `includes` compares with strict equality, so `undefined` never
matches a string tag. -/
def optionInTags (tags : List String) : Option String → Bool
  | none => false
  | some s => tags.contains s

/-- The success continuation of the Ollama fetch (`then`/`finally` of
`fetchOllamaModels`). `capturedModel` is the `selectedModel` value captured
by the effect closure when the fetch was started; `st` is the component
state at response time. The handler applies its updates unconditionally:
the effect installs no cleanup and checks no staleness flag. -/
def applyOllamaFetchSuccess (capturedModel : Option String) (models : List OllamaModel)
    (st : ComponentState) : ComponentState :=
  let st1 := { st with ollamaModels := models }
  let st2 :=
    match models with
    | [] => st1
    | m0 :: _ =>
      if optionInTags (models.map (fun m : OllamaModel => m.tag)) capturedModel then st1
      else { st1 with selectedModel := some m0.tag }
  { st2 with isLoadingOllamaModels := false }

/-- The fallback list computed in the `catch` block:
`(selectedAgent && agents?.[selectedAgent]?.supported_models.find(m => m.provider === 'ollama')?.models) || []`.
`capturedAgent`/`capturedAgents` are the closure captures; an empty-string
agent key is falsy in JS, short-circuiting to `[]`. -/
def ollamaFallbackModels (capturedAgents : Option AvailableAgents)
    (capturedAgent : Option String) : List String :=
  match capturedAgent, capturedAgents with
  | some a, some agents =>
    if a = "" then []
    else
      match List.lookup a agents with
      | none => []
      | some cfg =>
        match cfg.supported_models.find? (fun m : SupportedModel => m.provider == "ollama") with
        | none => []
        | some entry => entry.models
  | _, _ => []

/-- The failure continuation of the Ollama fetch (`catch`/`finally` of
`fetchOllamaModels`): record the error message, substitute the synthesized
fallback list (`{ tag: model, base_name: model }`), and touch nothing else. -/
def applyOllamaFetchFailure (capturedAgents : Option AvailableAgents)
    (capturedAgent : Option String) (message : String)
    (st : ComponentState) : ComponentState :=
  { st with
    ollamaError := some message,
    ollamaModels := (ollamaFallbackModels capturedAgents capturedAgent).map
      (fun m => { tag := m, base_name := m }),
    isLoadingOllamaModels := false }

/-- The configuration object passed to `updateSettings` in `handleSave`. -/
structure ResolvedSettings where
  selectedAgent : String
  selectedProvider : String
  selectedModel : String
  modelSettings : ValueMapping
  agentSettings : ValueMapping
  providerApiKeys : List (String × String)
deriving DecidableEq, Repr

/-- External side effects issued by `handleSave`, in order. -/
inductive Effect where
  | write (cfg : ResolvedSettings)
  | clearInitialState
  | resetSession
  | closeSettings
  | navigateHome
deriving DecidableEq, Repr

/-- JS falsiness of an optional string (`!x`): `undefined` or `''`. -/
def strFalsy : Option String → Bool
  | none => true
  | some s => s = ""

/-- `handleSave` from the source: reject (returning no effects) when any of
the five guarded fields is falsy; otherwise write the settings (merging the
previously stored `providerApiKeys`, or `{}`), then clear the chat state,
reset the session, close the drawer, and navigate home, in that order. -/
def handleSave (st : ComponentState) (currentSettings : Option ResolvedSettings) :
    List Effect :=
  match st.selectedAgent, st.selectedProvider, st.selectedModel,
      st.modelSettings, st.agentSettings with
  | some a, some p, some m, some ms, some ags =>
    if a = "" ∨ p = "" ∨ m = "" then []
    else
      [Effect.write
        { selectedAgent := a, selectedProvider := p, selectedModel := m,
          modelSettings := ms, agentSettings := ags,
          providerApiKeys := (currentSettings.map (fun c => c.providerApiKeys)).getD [] },
       Effect.clearInitialState, Effect.resetSession,
       Effect.closeSettings, Effect.navigateHome]
  | _, _, _, _, _ => []

/-! ### Demo fixtures (concrete catalog data used by witnesses) -/

/-- A demo model-parameter schema. -/
def demoModelSchema : Schema :=
  [("max_tokens", ⟨.integer, .num 1000, some 1, some 4096, none, none, none⟩),
   ("temperature", ⟨.float, .num 1, some 0, some 2, some 1, none, none⟩)]

/-- A demo agent supporting a hosted provider and the local Ollama runtime. -/
def demoAgent : AgentConfig :=
  { name := "Demo"
    description := "demo agent"
    supported_models := [⟨"openai", ["gpt-4"]⟩, ⟨"ollama", ["llama2", "codellama"]⟩]
    model_settings := demoModelSchema
    agent_settings := [("system_prompt", ⟨.textarea, .str "You are helpful", none, none, none, some 4000, none⟩)] }

/-- A second demo agent with a disjoint provider list. -/
def criticAgent : AgentConfig :=
  { name := "Critic"
    description := "critic agent"
    supported_models := [⟨"anthropic", ["claude-3"]⟩]
    model_settings := []
    agent_settings := [("style", ⟨.text, .str "terse", none, none, none, none, none⟩)] }

/-- A demo catalog with two agents. -/
def demoAgents : AvailableAgents := [("demo", demoAgent), ("critic", criticAgent)]

/-- A demo component state with every selection populated. -/
def demoState : ComponentState :=
  { selectedAgent := some "demo"
    selectedProvider := some "openai"
    selectedModel := some "gpt-4"
    modelSettings := some (computeDefaults demoModelSchema)
    agentSettings := some (computeDefaults demoAgent.agent_settings)
    ollamaModels := []
    ollamaError := none
    isLoadingOllamaModels := false }

/-! ### Helper lemmas on association-list records -/

theorem lookup_objSet_self (m : List (String × α)) (k : String) (v : α) :
    List.lookup k (objSet m k v) = some v := by
  induction m with
  | nil => simp [objSet, List.lookup]
  | cons kv rest ih =>
    by_cases h : kv.1 = k
    · simp [objSet, h, List.lookup]
    · have hb : (k == kv.1) = false := beq_eq_false_iff_ne.mpr (Ne.symm h)
      simp [objSet, h, List.lookup, hb, ih]

theorem lookup_objSet_ne (m : List (String × α)) (k k' : String) (v : α)
    (h : k' ≠ k) : List.lookup k' (objSet m k v) = List.lookup k' m := by
  induction m with
  | nil =>
    have hb : (k' == k) = false := beq_eq_false_iff_ne.mpr h
    simp [objSet, List.lookup, hb]
  | cons kv rest ih =>
    by_cases hkv : kv.1 = k
    · subst hkv
      have hb : (k' == kv.1) = false := beq_eq_false_iff_ne.mpr h
      simp [objSet, List.lookup, hb]
    · simp [objSet, hkv, List.lookup, ih]

theorem objSet_append (m : List (String × α)) (k : String) (v : α)
    (h : ∀ kv ∈ m, kv.1 ≠ k) : objSet m k v = m ++ [(k, v)] := by
  induction m with
  | nil => rfl
  | cons kv rest ih =>
    have h1 : kv.1 ≠ k := h kv (by simp)
    simp only [objSet, h1, if_false, List.cons_append, List.cons.injEq, true_and]
    exact ih (fun kv' hm => h kv' (by simp [hm]))

theorem computeDefaults_foldl (s : Schema) :
    ∀ acc : ValueMapping,
      (∀ k ∈ s.map Prod.fst, ∀ kv ∈ acc, kv.1 ≠ k) →
      (s.map Prod.fst).Nodup →
      s.foldl (fun acc kv => objSet acc kv.1 kv.2.default) acc
        = acc ++ s.map (fun kv => (kv.1, kv.2.default)) := by
  induction s with
  | nil => intro acc _ _; simp
  | cons kc t ih =>
    intro acc hdisj hnodup
    have hk : ∀ kv ∈ acc, kv.1 ≠ kc.1 :=
      fun kv hkv => hdisj kc.1 (by simp) kv hkv
    rw [List.foldl_cons, objSet_append acc kc.1 kc.2.default hk,
      ih (acc ++ [(kc.1, kc.2.default)]) ?_ ?_]
    · simp
    · intro k hk' kv hkv
      rcases List.mem_append.mp hkv with h1 | h2
      · exact hdisj k (by simp [hk']) kv h1
      · have hkc : kv = (kc.1, kc.2.default) := by simpa using h2
        subst hkc
        have hnm : kc.1 ∉ t.map Prod.fst :=
          (List.nodup_cons.mp (by simpa using hnodup)).1
        intro hcontra
        exact hnm (by rw [hcontra]; exact hk')
    · exact (List.nodup_cons.mp (by simpa using hnodup)).2

theorem computeDefaults_eq_map (s : Schema) (h : (s.map Prod.fst).Nodup) :
    computeDefaults s = s.map (fun kv => (kv.1, kv.2.default)) := by
  simpa [computeDefaults] using computeDefaults_foldl s [] (by simp) h

theorem lookup_map_snd (s : List (String × α)) (f : α → β) (k : String) :
    List.lookup k (s.map (fun kv => (kv.1, f kv.2))) = (List.lookup k s).map f := by
  induction s with
  | nil => simp
  | cons kv t ih =>
    by_cases h : k = kv.1
    · simp [List.lookup, h]
    · have hb : (k == kv.1) = false := beq_eq_false_iff_ne.mpr h
      simp [List.lookup, hb, ih]

/-! ### Claim theorems -/

/-- C5: for every parameter schema (whose keys, coming from a JS object, are
unique), `computeDefaults` returns a value mapping whose key list exactly
equals the schema's key list, and maps each key to that key's declared
default value. -/
theorem computeDefaults_spec (s : Schema) (h : (s.map Prod.fst).Nodup) :
    ((computeDefaults s).map Prod.fst = s.map Prod.fst) ∧
    (∀ k : String,
      List.lookup k (computeDefaults s) = (List.lookup k s).map (fun c => c.default)) := by
  constructor
  · rw [computeDefaults_eq_map s h]
    simp
  · intro k
    rw [computeDefaults_eq_map s h]
    exact lookup_map_snd s (fun c => c.default) k

/-- Witness for C5 at the demo model schema. -/
theorem computeDefaults_spec_witness :
    (demoModelSchema.map Prod.fst).Nodup ∧
    ((computeDefaults demoModelSchema).map Prod.fst = demoModelSchema.map Prod.fst) ∧
    List.lookup "temperature" (computeDefaults demoModelSchema)
      = (List.lookup "temperature" demoModelSchema).map (fun c => c.default) :=
  ⟨by decide,
   (computeDefaults_spec demoModelSchema (by decide)).1,
   (computeDefaults_spec demoModelSchema (by decide)).2 "temperature"⟩

/-- C6: for every numeric parameter spec satisfying the data-model invariant
— the declared numeric default already satisfies any bounds present — and
every input value: `sanitizeNumber` is idempotent; whenever both bounds are
defined the result lies within `[min, max]`; and a value whose spec declares
no bounds passes through unchanged. -/
theorem sanitizeNumber_spec (config : SettingConfig) (v d : ℚ)
    (_hdef : config.default = Value.num d)
    (hdmn : ∀ mn : ℚ, config.min = some mn → mn ≤ d)
    (hdmx : ∀ mx : ℚ, config.max = some mx → d ≤ mx) :
    sanitizeNumber config (sanitizeNumber config v) = sanitizeNumber config v ∧
    (∀ mn mx : ℚ, config.min = some mn → config.max = some mx →
      mn ≤ sanitizeNumber config v ∧ sanitizeNumber config v ≤ mx) ∧
    (config.min = none → config.max = none → sanitizeNumber config v = v) := by
  refine ⟨?_, ?_, ?_⟩
  · cases hmn : config.min <;> cases hmx : config.max <;>
      simp only [sanitizeNumber, hmn, hmx] <;>
      simp only [min_def, max_def] <;> split_ifs <;> linarith
  · intro mn mx hmn hmx
    have hle : mn ≤ mx := le_trans (hdmn mn hmn) (hdmx mx hmx)
    simp only [sanitizeNumber, hmn, hmx]
    exact ⟨le_max_right _ _, max_le (min_le_right v mx) hle⟩
  · intro hmn hmx
    simp [sanitizeNumber, hmn, hmx]

/-- Witness for C6 at the spec `min = 0`, `max = 1`, `default = 0` and
input 5. -/
theorem sanitizeNumber_spec_witness :
    sanitizeNumber ⟨.float, .num 0, some 0, some 1, none, none, none⟩
        (sanitizeNumber ⟨.float, .num 0, some 0, some 1, none, none, none⟩ 5)
      = sanitizeNumber ⟨.float, .num 0, some 0, some 1, none, none, none⟩ 5 ∧
    ((0 : ℚ) ≤ sanitizeNumber ⟨.float, .num 0, some 0, some 1, none, none, none⟩ 5 ∧
      sanitizeNumber ⟨.float, .num 0, some 0, some 1, none, none, none⟩ 5 ≤ 1) :=
  ⟨(sanitizeNumber_spec ⟨.float, .num 0, some 0, some 1, none, none, none⟩ 5 0
      rfl (by intro mn h; injection h with h2; exact le_of_eq h2.symm)
      (by intro mx h; injection h with h2; subst h2; decide)).1,
   (sanitizeNumber_spec ⟨.float, .num 0, some 0, some 1, none, none, none⟩ 5 0
      rfl (by intro mn h; injection h with h2; exact le_of_eq h2.symm)
      (by intro mx h; injection h with h2; subst h2; decide)).2.1
     0 1 rfl rfl⟩

/-- C10: `computeApiBaseUrl` returns the localhost default when `API_URL` is
unset or empty, returns `API_URL` unchanged when it starts with `http://` or
`https://`, and otherwise prefixes it with `https://`. -/
theorem computeApiBaseUrl_spec (s : String) :
    computeApiBaseUrl none = "http://localhost:8000" ∧
    (s = "" → computeApiBaseUrl (some s) = "http://localhost:8000") ∧
    (jsStartsWith s "http://" = true ∨ jsStartsWith s "https://" = true →
      computeApiBaseUrl (some s) = s) ∧
    (s ≠ "" → jsStartsWith s "http://" = false → jsStartsWith s "https://" = false →
      computeApiBaseUrl (some s) = "https://" ++ s) := by
  refine ⟨rfl, ?_, ?_, ?_⟩
  · intro h
    simp [computeApiBaseUrl, h]
  · intro h
    rcases h with h | h <;> by_cases he : s = "" <;>
      simp_all [computeApiBaseUrl, jsStartsWith]
  · intro he h1 h2
    simp [computeApiBaseUrl, he, h1, h2]

/-- Witness for C10 at a bare hostname, an unset value, and a full URL. -/
theorem computeApiBaseUrl_spec_witness :
    computeApiBaseUrl (some "app.example") = "https://" ++ "app.example" ∧
    computeApiBaseUrl (some "http://x:8000") = "http://x:8000" :=
  ⟨(computeApiBaseUrl_spec "app.example").2.2.2 (by decide) (by decide) (by decide),
   (computeApiBaseUrl_spec "http://x:8000").2.2.1 (Or.inl (by decide))⟩

/-- C2 counterexample: the key `bogus` is not in the demo agent's model
schema, yet `handleSettingChange` stores it into the mapping — the update is
not a no-op and the value is not dropped (the schema is never consulted). -/
theorem handleSettingChange_unknown_key_applied :
    List.lookup "bogus" demoAgent.model_settings = none ∧
    (handleSettingChange SettingKind.model "bogus" (Value.num 1) demoState).modelSettings
      ≠ demoState.modelSettings ∧
    List.lookup "bogus"
        (((handleSettingChange SettingKind.model "bogus" (Value.num 1)
          demoState).modelSettings).getD [])
      = some (Value.num 1) := by
  refine ⟨by decide, by decide, by decide⟩

/-- C2 (amended): `handleSettingChange` replaces only the given key,
preserving the lookup of every other key and leaving the other family's
mapping untouched; it is total (never crashes), but a key outside the
selected agent's schema is stored rather than dropped (see the
counterexample): the schema is never consulted. -/
theorem handleSettingChange_spec (st : ComponentState) (key k : String) (v : Value)
    (hk : k ≠ key) :
    (List.lookup key ((handleSettingChange .model key v st).modelSettings.getD [])
      = some v) ∧
    (List.lookup k ((handleSettingChange .model key v st).modelSettings.getD [])
      = List.lookup k (st.modelSettings.getD [])) ∧
    ((handleSettingChange .model key v st).agentSettings = st.agentSettings) ∧
    (List.lookup key ((handleSettingChange .agent key v st).agentSettings.getD [])
      = some v) ∧
    (List.lookup k ((handleSettingChange .agent key v st).agentSettings.getD [])
      = List.lookup k (st.agentSettings.getD [])) ∧
    ((handleSettingChange .agent key v st).modelSettings = st.modelSettings) := by
  refine ⟨?_, ?_, rfl, ?_, ?_, rfl⟩
  · exact lookup_objSet_self _ key v
  · exact lookup_objSet_ne _ key k v hk
  · exact lookup_objSet_self _ key v
  · exact lookup_objSet_ne _ key k v hk

/-- Witness for C2 (amended) at the demo state: updating `temperature`
stores the new value and preserves `max_tokens`. -/
theorem handleSettingChange_spec_witness :
    ("max_tokens" : String) ≠ "temperature" ∧
    List.lookup "temperature"
        ((handleSettingChange .model "temperature" (Value.num 2)
          demoState).modelSettings.getD [])
      = some (Value.num 2) ∧
    List.lookup "max_tokens"
        ((handleSettingChange .model "temperature" (Value.num 2)
          demoState).modelSettings.getD [])
      = List.lookup "max_tokens" (demoState.modelSettings.getD []) :=
  ⟨by decide,
   (handleSettingChange_spec demoState "temperature" "max_tokens" (Value.num 2)
     (by decide)).1,
   (handleSettingChange_spec demoState "temperature" "max_tokens" (Value.num 2)
     (by decide)).2.1⟩

/-- C3: when the selected agent changes to `b` — a real (hence non-empty,
truthy) catalog key — whatever the prior selections and parameter values,
the agent-change effect resets the provider to `b`'s first supported-model
entry's provider, the model to that entry's first model, and regenerates
both value mappings purely from `b`'s schema defaults — the result is
independent of every prior value. -/
theorem agentChangeEffect_spec (agents : AvailableAgents) (st : ComponentState)
    (b : String) (cfg : AgentConfig) (entry : SupportedModel)
    (rest : List SupportedModel) (m0 : String) (ms : List String)
    (hA : st.selectedAgent = some b)
    (hb : b ≠ "")
    (hcfg : List.lookup b agents = some cfg)
    (hsup : cfg.supported_models = entry :: rest)
    (hmod : entry.models = m0 :: ms) :
    agentChangeEffect agents st = some { st with
      selectedProvider := some entry.provider,
      selectedModel := some m0,
      modelSettings := some (computeDefaults cfg.model_settings),
      agentSettings := some (computeDefaults cfg.agent_settings) } := by
  simp [agentChangeEffect, hA, hb, hcfg, hsup, hmod]

/-- Witness for C3: switching the demo state (agent `demo`, provider
`openai`, populated parameter values) to the `critic` agent resets to
`anthropic` / `claude-3` and to `critic`'s schema defaults. -/
theorem agentChangeEffect_spec_witness :
    agentChangeEffect demoAgents { demoState with selectedAgent := some "critic" }
      = some { demoState with
          selectedAgent := some "critic",
          selectedProvider := some "anthropic",
          selectedModel := some "claude-3",
          modelSettings := some (computeDefaults criticAgent.model_settings),
          agentSettings := some (computeDefaults criticAgent.agent_settings) } :=
  agentChangeEffect_spec demoAgents { demoState with selectedAgent := some "critic" }
    "critic" criticAgent ⟨"anthropic", ["claude-3"]⟩ [] "claude-3" []
    rfl (by decide) (by decide) rfl rfl

/-- C4: when the selected provider changes to an id that appears among the
current agent's supported-model entries (with a non-empty model list, as the
data model guarantees) — the agent key and provider id being real, hence
non-empty, truthy identifiers — the provider-change effect resets the model
to the first model of that entry and leaves both parameter value mappings —
and everything else in the state — unchanged. -/
theorem providerChangeEffect_spec (agents : AvailableAgents) (st : ComponentState)
    (a p : String) (cfg : AgentConfig) (entry : SupportedModel)
    (m0 : String) (ms : List String)
    (hA : st.selectedAgent = some a)
    (hP : st.selectedProvider = some p)
    (ha : a ≠ "") (hp : p ≠ "")
    (hcfg : List.lookup a agents = some cfg)
    (hfind : cfg.supported_models.find? (fun m : SupportedModel => m.provider == p)
      = some entry)
    (hmod : entry.models = m0 :: ms) :
    providerChangeEffect agents st = some { st with selectedModel := some m0 } ∧
    ({ st with selectedModel := some m0 } : ComponentState).modelSettings
      = st.modelSettings ∧
    ({ st with selectedModel := some m0 } : ComponentState).agentSettings
      = st.agentSettings := by
  refine ⟨?_, rfl, rfl⟩
  simp [providerChangeEffect, hA, hP, ha, hp, hcfg, hfind, hmod]

/-- Witness for C4: switching the demo state's provider to `ollama` resets
the model to `llama2` and preserves both value mappings. -/
theorem providerChangeEffect_spec_witness :
    providerChangeEffect demoAgents { demoState with selectedProvider := some "ollama" }
      = some { demoState with
          selectedProvider := some "ollama", selectedModel := some "llama2" } ∧
    (some (computeDefaults demoModelSchema) : Option ValueMapping)
      = ({ demoState with selectedProvider := some "ollama" } : ComponentState).modelSettings :=
  ⟨(providerChangeEffect_spec demoAgents
      { demoState with selectedProvider := some "ollama" }
      "demo" "ollama" demoAgent ⟨"ollama", ["llama2", "codellama"]⟩
      "llama2" ["codellama"] rfl rfl (by decide) (by decide) (by decide)
      (by decide) rfl).1,
   rfl⟩

/-- C7: `handleSave` with any of the five required fields absent issues no
effect at all — in particular no settings write and neither reset call; with
all five present (the three ids being non-empty strings, since the gate
treats the empty string like an absent field), it issues the settings write
followed by the two reset calls (then the drawer close and navigation). -/
theorem handleSave_spec (st : ComponentState) (cur : Option ResolvedSettings) :
    ((st.selectedAgent = none ∨ st.selectedProvider = none ∨ st.selectedModel = none ∨
        st.modelSettings = none ∨ st.agentSettings = none) →
      handleSave st cur = []) ∧
    (∀ (a p m : String) (ms ags : ValueMapping),
      st.selectedAgent = some a → st.selectedProvider = some p →
      st.selectedModel = some m → st.modelSettings = some ms →
      st.agentSettings = some ags →
      a ≠ "" → p ≠ "" → m ≠ "" →
      handleSave st cur =
        [Effect.write
          { selectedAgent := a, selectedProvider := p, selectedModel := m,
            modelSettings := ms, agentSettings := ags,
            providerApiKeys := (cur.map (fun c => c.providerApiKeys)).getD [] },
         Effect.clearInitialState, Effect.resetSession,
         Effect.closeSettings, Effect.navigateHome]) := by
  obtain ⟨A, P, M, MS, AG, om, oe, il⟩ := st
  constructor
  · intro h
    cases A <;> cases P <;> cases M <;> cases MS <;> cases AG <;>
      first
        | rfl
        | (exfalso; rcases h with h | h | h | h | h <;> simp at h)
  · intro a p m ms ags hA hP hM hMS hAG ha hp hm
    simp only at hA hP hM hMS hAG
    subst hA hP hM hMS hAG
    simp [handleSave, ha, hp, hm]

/-- Witness for C7: the demo state commits, writing the configuration and
then issuing the two resets; and with the model removed nothing is issued. -/
theorem handleSave_spec_witness :
    handleSave demoState none =
      [Effect.write
        { selectedAgent := "demo", selectedProvider := "openai",
          selectedModel := "gpt-4",
          modelSettings := computeDefaults demoModelSchema,
          agentSettings := computeDefaults demoAgent.agent_settings,
          providerApiKeys := [] },
       Effect.clearInitialState, Effect.resetSession,
       Effect.closeSettings, Effect.navigateHome] ∧
    handleSave { demoState with selectedModel := none } none = [] :=
  ⟨(handleSave_spec demoState none).2 "demo" "openai" "gpt-4"
      (computeDefaults demoModelSchema) (computeDefaults demoAgent.agent_settings)
      rfl rfl rfl rfl rfl (by decide) (by decide) (by decide),
   (handleSave_spec { demoState with selectedModel := none } none).1
      (Or.inr (Or.inr (Or.inl rfl)))⟩

/-- C8: on a successful fetch returning a non-empty list, with the selected
model at response time equal to the one captured when the fetch started (the
non-stale run): if the selected model's identifier is not among the fetched
tags the selection becomes the first fetched tag, and if it is among them
the selection is unchanged; the fetched list is installed either way. -/
theorem applyOllamaFetchSuccess_spec (capturedModel : Option String)
    (models : List OllamaModel) (st : ComponentState)
    (m0 : OllamaModel) (rest : List OllamaModel)
    (hne : models = m0 :: rest)
    (hcur : capturedModel = st.selectedModel) :
    (optionInTags (models.map (fun m : OllamaModel => m.tag)) st.selectedModel = false →
      (applyOllamaFetchSuccess capturedModel models st).selectedModel = some m0.tag) ∧
    (optionInTags (models.map (fun m : OllamaModel => m.tag)) st.selectedModel = true →
      (applyOllamaFetchSuccess capturedModel models st).selectedModel
        = st.selectedModel) ∧
    (applyOllamaFetchSuccess capturedModel models st).ollamaModels = models := by
  subst hne
  subst hcur
  refine ⟨?_, ?_, ?_⟩
  · intro h
    simp only [List.map_cons] at h
    simp [applyOllamaFetchSuccess, h]
  · intro h
    simp only [List.map_cons] at h
    simp [applyOllamaFetchSuccess, h]
  · by_cases h : optionInTags (m0.tag :: rest.map (fun m : OllamaModel => m.tag))
        st.selectedModel = true
    · simp [applyOllamaFetchSuccess, h]
    · simp [applyOllamaFetchSuccess, h]

/-- Witness for C8: a fresh Ollama fetch returning `[llama2]` while `gpt-4`
is selected auto-selects `llama2`. -/
theorem applyOllamaFetchSuccess_spec_witness :
    optionInTags (([⟨"llama2", "llama2"⟩] : List OllamaModel).map
        (fun m : OllamaModel => m.tag)) demoState.selectedModel = false ∧
    (applyOllamaFetchSuccess (some "gpt-4") [⟨"llama2", "llama2"⟩]
        demoState).selectedModel = some "llama2" :=
  ⟨by decide,
   (applyOllamaFetchSuccess_spec (some "gpt-4") [⟨"llama2", "llama2"⟩] demoState
      ⟨"llama2", "llama2"⟩ [] rfl rfl).1 (by decide)⟩

/-- C9: on a failed fetch, the handler records the error message, substitutes
the fallback list synthesized from the captured agent's static Ollama entry
(tag = model identifier = base name), and leaves the selected model — indeed
every selection — unchanged. -/
theorem applyOllamaFetchFailure_spec (capturedAgents : Option AvailableAgents)
    (capturedAgent : Option String) (message : String) (st : ComponentState)
    (a : String) (agents : AvailableAgents) (cfg : AgentConfig)
    (entry : SupportedModel)
    (hA : capturedAgent = some a) (hne : a ≠ "")
    (hAg : capturedAgents = some agents)
    (hcfg : List.lookup a agents = some cfg)
    (hfind : cfg.supported_models.find?
      (fun m : SupportedModel => m.provider == "ollama") = some entry) :
    (applyOllamaFetchFailure capturedAgents capturedAgent message st).ollamaError
      = some message ∧
    (applyOllamaFetchFailure capturedAgents capturedAgent message st).ollamaModels
      = entry.models.map (fun m => { tag := m, base_name := m }) ∧
    (applyOllamaFetchFailure capturedAgents capturedAgent message st).selectedModel
      = st.selectedModel := by
  subst hA
  subst hAg
  refine ⟨rfl, ?_, rfl⟩
  simp [applyOllamaFetchFailure, ollamaFallbackModels, hne, hcfg, hfind]

/-- Witness for C9: a failed fetch for the demo agent records the message and
falls back to `[llama2, codellama]` with tag = base name, leaving `gpt-4`
selected. -/
theorem applyOllamaFetchFailure_spec_witness :
    (applyOllamaFetchFailure (some demoAgents) (some "demo") "connection refused"
        demoState).ollamaError = some "connection refused" ∧
    (applyOllamaFetchFailure (some demoAgents) (some "demo") "connection refused"
        demoState).ollamaModels
      = [⟨"llama2", "llama2"⟩, ⟨"codellama", "codellama"⟩] ∧
    (applyOllamaFetchFailure (some demoAgents) (some "demo") "connection refused"
        demoState).selectedModel = demoState.selectedModel :=
  ⟨(applyOllamaFetchFailure_spec (some demoAgents) (some "demo") "connection refused"
      demoState "demo" demoAgents demoAgent ⟨"ollama", ["llama2", "codellama"]⟩
      rfl (by decide) rfl (by decide) (by decide)).1,
   ((applyOllamaFetchFailure_spec (some demoAgents) (some "demo") "connection refused"
      demoState "demo" demoAgents demoAgent ⟨"ollama", ["llama2", "codellama"]⟩
      rfl (by decide) rfl (by decide) (by decide)).2.1).trans rfl,
   (applyOllamaFetchFailure_spec (some demoAgents) (some "demo") "connection refused"
      demoState "demo" demoAgents demoAgent ⟨"ollama", ["llama2", "codellama"]⟩
      rfl (by decide) rfl (by decide) (by decide)).2.2⟩

/-- C1: the staleness-discard claim fails on the code. The effect that starts
the Ollama fetch installs no cleanup and compares no generation counter, so
the success continuation applies its updates unconditionally. Concretely:
the fetch was started while `ollama` was selected with model `llama2`; the
user then switched the provider to `openai` (the cascade re-selected
`gpt-4`); when the response `[mistral]` later resolves, the handler still
replaces the dynamic model list and overwrites the selection with `mistral`,
instead of discarding the stale response. -/
theorem stale_ollama_response_applied :
    (({ demoState with selectedProvider := some "openai" } : ComponentState).selectedProvider
        ≠ some "ollama") ∧
    (applyOllamaFetchSuccess (some "llama2") [⟨"mistral", "mistral"⟩]
        { demoState with selectedProvider := some "openai" }).selectedModel
      = some "mistral" ∧
    (applyOllamaFetchSuccess (some "llama2") [⟨"mistral", "mistral"⟩]
        { demoState with selectedProvider := some "openai" }).selectedModel
      ≠ ({ demoState with selectedProvider := some "openai" } : ComponentState).selectedModel ∧
    (applyOllamaFetchSuccess (some "llama2") [⟨"mistral", "mistral"⟩]
        { demoState with selectedProvider := some "openai" }).ollamaModels
      ≠ ({ demoState with selectedProvider := some "openai" } : ComponentState).ollamaModels := by
  refine ⟨by decide, by decide, by decide, by decide⟩
